import Mathlib

set_option maxRecDepth 8000

/-!
Shallow embedding of the triage decision engine of the ai-triage-ui
repository (src/app2.py multi-outcome engine and src/app.py ICU-proxy
variant), together with theorems settling the frozen claims about it.

Modelling conventions:
* Python floats (probabilities, temperature, cutoffs) are embedded as
  rationals; every widget-produced float is a dyadic rational, so all
  comparisons performed by the code are reproduced exactly.
* Python dictionaries of outcome probabilities are embedded as
  association lists; preds.get(k, 0) becomes getD, a lookup with
  default 0, exactly as in the source.
* The vitals dictionary built in the results panel always carries the
  seven keys sbp, o2sat, rr, temp, gcs_e, gcs_v, gcs_m, but
  vital_red_flags reads each with a get-with-default: fields are
  Option values and the source defaults 999, 100, 0, 0, 4, 5, 6 are
  applied at the read.
* The Python globals read by triage_decision (the four cutoff sliders,
  the red-flag toggle, the five red-flag threshold widgets and the
  language key) are gathered into an explicit Config parameter.
* f-string numeric formatting (:.1f and :.0f) is embedded by exact
  round-half-to-even rendering of the rational value.
-/

namespace EDTriage

/-- The two UI languages (LANG_KEY in the source). -/
inductive Lang where
  | en
  | th
deriving DecidableEq, Repr

/-- The five red-flag threshold widgets of the sidebar: rf_sbp, rf_o2,
rf_rr_hi are integer number inputs, rf_temp_hi a float input and
rf_gcs an integer input. -/
structure RedFlagThresholds where
  rf_sbp : ℤ
  rf_o2 : ℤ
  rf_rr_hi : ℤ
  rf_temp_hi : ℚ
  rf_gcs : ℤ
deriving DecidableEq, Repr

/-- The vitals dictionary passed to vital_red_flags; a missing key is
None here and the source default is applied by getD at each read. -/
structure Vitals where
  sbp : Option ℤ := none
  o2sat : Option ℤ := none
  rr : Option ℤ := none
  temp : Option ℚ := none
  gcs_e : Option ℤ := none
  gcs_v : Option ℤ := none
  gcs_m : Option ℤ := none
deriving DecidableEq, Repr

/-- All sidebar state read by triage_decision: the four cutoff sliders
lvl1_cut..lvl4_cut, the apply_redflags toggle, the five red-flag
thresholds, and the language key. -/
structure Config where
  lvl1_cut : ℚ
  lvl2_cut : ℚ
  lvl3_cut : ℚ
  lvl4_cut : ℚ
  apply_redflags : Bool
  th : RedFlagThresholds
  lang : Lang
deriving DecidableEq, Repr

/-- The tuple returned by triage_decision: (level, css class, rationale). -/
structure TriageResult where
  level : ℕ
  css : String
  rationale : List String
deriving DecidableEq, Repr

/-- Lookup with default 0, the embedding of preds.get(key, 0). -/
def getD (preds : List (String × ℚ)) (k : String) : ℚ :=
  (preds.lookup k).getD 0

/-- TARGETS, the nine outcome names, in source order. -/
def TARGETS : List String :=
  ["icu_admission", "or", "7_day_death", "admission", "lab",
   "xray", "et", "inject", "consult"]

/-- The dict comprehension of predict_single in app2.py:
zip(TARGETS, flat) built into a mapping; zip truncates to the shorter
of the two lists, so extra targets are silently absent. -/
def predictPreds (flat : List ℚ) : List (String × ℚ) :=
  TARGETS.zip flat

/-! ### Decimal rendering of numbers, mirroring Python formatting -/

/-- Left-pad a digit string with zeros to the given length. -/
def padLeftZeros (s : String) (n : ℕ) : String :=
  if n ≤ s.length then s else String.mk (List.replicate (n - s.length) '0') ++ s

/-- Fuel-bounded count of decimal digits needed to write q exactly. -/
def fracDigitsAux : ℚ → ℕ → ℕ
  | _, 0 => 0
  | q, Nat.succ fuel => if q.den = 1 then 0 else fracDigitsAux (q * 10) fuel + 1

/-- Number of fractional digits Python str shows for a float-valued
rational (at least one, as in str(40.0) = 40.0). -/
def fracDigits (q : ℚ) : ℕ := max 1 (fracDigitsAux q 60)

/-- Python str of a float value, embedded for float-valued rationals:
shortest exact decimal expansion, at least one fractional digit. -/
def pyFloatStr (q : ℚ) : String :=
  let k := fracDigits q
  let m := (q * (10 : ℚ) ^ k).num
  let sign := if m < 0 then "-" else ""
  let digits := padLeftZeros (toString m.natAbs) (k + 1)
  sign ++ digits.take (digits.length - k) ++ "." ++ digits.drop (digits.length - k)

/-- Round to the nearest integer, ties to even, as Python format does
(on the exact rational value). -/
def roundHalfToEven (q : ℚ) : ℤ :=
  let f := Int.fdiv q.num (q.den : ℤ)
  let r := q - (f : ℚ)
  if r < 1 / 2 then f
  else if (1 : ℚ) / 2 < r then f + 1
  else if f % 2 = 0 then f else f + 1

/-- Python fixed-point formatting: fmtFixed p q embeds f-string
formatting of q with p decimal places (:.1f, :.0f). -/
def fmtFixed (prec : ℕ) (q : ℚ) : String :=
  let m := roundHalfToEven (q * (10 : ℚ) ^ prec)
  if prec = 0 then toString m
  else
    let sign := if m < 0 then "-" else ""
    let digits := padLeftZeros (toString m.natAbs) (prec + 1)
    sign ++ digits.take (digits.length - prec) ++ "." ++ digits.drop (digits.length - prec)

/-! ### The red-flag rule evaluator (vital_red_flags, identical in
app.py and app2.py) -/

/-- Flag string for low systolic blood pressure. -/
def sbpFlag (th : RedFlagThresholds) : String := "SBP < " ++ toString th.rf_sbp

/-- Flag string for low oxygen saturation. -/
def spo2Flag (th : RedFlagThresholds) : String := "SpO₂ < " ++ toString th.rf_o2 ++ "%"

/-- Flag string for high respiratory rate. -/
def rrFlag (th : RedFlagThresholds) : String := "RR > " ++ toString th.rf_rr_hi

/-- Flag string for high temperature. -/
def tempFlag (th : RedFlagThresholds) : String := "Temp ≥ " ++ pyFloatStr th.rf_temp_hi ++ "°C"

/-- Flag string for low total GCS. -/
def gcsFlag (th : RedFlagThresholds) : String := "GCS ≤ " ++ toString th.rf_gcs

/-- vital_red_flags(v): five checks in fixed order, each appending one
string when triggered; missing vitals default to 999, 100, 0, 0 and
GCS components 4, 5, 6. -/
def vital_red_flags (th : RedFlagThresholds) (v : Vitals) : List String :=
  (if v.sbp.getD 999 < th.rf_sbp then [sbpFlag th] else []) ++
  (if v.o2sat.getD 100 < th.rf_o2 then [spo2Flag th] else []) ++
  (if th.rf_rr_hi < v.rr.getD 0 then [rrFlag th] else []) ++
  (if th.rf_temp_hi ≤ v.temp.getD 0 then [tempFlag th] else []) ++
  (if v.gcs_e.getD 4 + v.gcs_v.getD 5 + v.gcs_m.getD 6 ≤ th.rf_gcs then [gcsFlag th] else [])

/-! ### The triage decision engine (triage_decision in app2.py) -/

/-- Critical bucket: max over 7_day_death, icu_admission, et, or
(Python max of four arguments folds from the left). -/
def criticalOf (preds : List (String × ℚ)) : ℚ :=
  max (max (max (getD preds "7_day_death") (getD preds "icu_admission"))
    (getD preds "et")) (getD preds "or")

/-- Urgent bucket: max over admission, inject, consult. -/
def urgentOf (preds : List (String × ℚ)) : ℚ :=
  max (max (getD preds "admission") (getD preds "inject")) (getD preds "consult")

/-- Minor bucket: max over lab, xray. -/
def minorOf (preds : List (String × ℚ)) : ℚ :=
  max (getD preds "lab") (getD preds "xray")

/-- T[vital_redflags_prefix], the header put before the joined flags. -/
def flagsHeader : Lang → String
  | .en => "Vital red‑flags: "
  | .th => "สัญญาณเตือนชีพ: "

/-- The language-dependent label of the critical-risk rationale. -/
def criticalRiskLabel : Lang → String
  | .en => "Critical risk "
  | .th => "ความเสี่ยงวิกฤต "

/-- The language-dependent label of the urgent-resource rationale. -/
def urgentRiskLabel : Lang → String
  | .en => "Urgent resource risk "
  | .th => "ความเสี่ยงทรัพยากรเร่งด่วน "

/-- The language-dependent label of the minor-resource rationale. -/
def minorRiskLabel : Lang → String
  | .en => "Minor resource risk "
  | .th => "ความเสี่ยงทรัพยากรเล็กน้อย "

/-- The label of the ICU-proxy rationale of app.py. -/
def icuRiskLabel : Lang → String
  | .en => "ICU risk "
  | .th => "ความเสี่ยงเข้า ICU "

/-- T[below_cutoffs], the level-5 rationale. -/
def belowCutoffsText : Lang → String
  | .en => "All risks below cutoffs"
  | .th => "ความเสี่ยงทั้งหมดต่ำกว่าค่าตัดสินใจ"

/-- LEVEL_MAP[level][1], the css badge class per level. -/
def levelCss : ℕ → String
  | 1 => "lvl1"
  | 2 => "lvl2"
  | 3 => "lvl3"
  | 4 => "lvl4"
  | _ => "lvl5"

/-- The single red-flag rationale entry: header plus the flags joined
with a comma and space. -/
def flagsLine (cfg : Config) (v : Vitals) : String :=
  flagsHeader cfg.lang ++ String.intercalate ", " (vital_red_flags cfg.th v)

/-- Rationale entry of the level-1 critical branch of app2.py. -/
def critL1Line (cfg : Config) (preds : List (String × ℚ)) : String :=
  criticalRiskLabel cfg.lang ++ fmtFixed 1 (criticalOf preds * 100) ++
    "% ≥ L1 " ++ fmtFixed 0 (cfg.lvl1_cut * 100) ++ "%"

/-- Rationale entry of the level-2 critical branch of app2.py. -/
def critL2Line (cfg : Config) (preds : List (String × ℚ)) : String :=
  criticalRiskLabel cfg.lang ++ fmtFixed 1 (criticalOf preds * 100) ++
    "% ≥ L2 " ++ fmtFixed 0 (cfg.lvl2_cut * 100) ++ "%"

/-- Rationale entry of the level-3 urgent branch of app2.py. -/
def urgL3Line (cfg : Config) (preds : List (String × ℚ)) : String :=
  urgentRiskLabel cfg.lang ++ fmtFixed 1 (urgentOf preds * 100) ++
    "% ≥ L3 " ++ fmtFixed 0 (cfg.lvl3_cut * 100) ++ "%"

/-- Rationale entry of the level-4 minor branch of app2.py. -/
def minL4Line (cfg : Config) (preds : List (String × ℚ)) : String :=
  minorRiskLabel cfg.lang ++ fmtFixed 1 (minorOf preds * 100) ++
    "% ≥ L4 " ++ fmtFixed 0 (cfg.lvl4_cut * 100) ++ "%"

/-- triage_decision(preds, vitals) of app2.py: red flags first when the
toggle is on, then the ordered cutoff cascade on the bucket maxima,
first matching branch returning. -/
def triage_decision (cfg : Config) (preds : List (String × ℚ)) (v : Vitals) :
    TriageResult :=
  if cfg.apply_redflags = true ∧ vital_red_flags cfg.th v ≠ [] then
    ⟨1, levelCss 1, [flagsLine cfg v]⟩
  else if cfg.lvl1_cut ≤ criticalOf preds then ⟨1, levelCss 1, [critL1Line cfg preds]⟩
  else if cfg.lvl2_cut ≤ criticalOf preds then ⟨2, levelCss 2, [critL2Line cfg preds]⟩
  else if cfg.lvl3_cut ≤ urgentOf preds then ⟨3, levelCss 3, [urgL3Line cfg preds]⟩
  else if cfg.lvl4_cut ≤ minorOf preds then ⟨4, levelCss 4, [minL4Line cfg preds]⟩
  else ⟨5, levelCss 5, [belowCutoffsText cfg.lang]⟩

/-! ### The single-outcome variant (triage_decision in app.py) -/

/-- Rationale entries of the ICU-proxy cascade of app.py, level 1. -/
def icuL1Line (cfg : Config) (p : ℚ) : String :=
  icuRiskLabel cfg.lang ++ fmtFixed 1 (p * 100) ++ "% ≥ L1 " ++
    fmtFixed 0 (cfg.lvl1_cut * 100) ++ "%"

/-- Rationale entry of app.py, level 2. -/
def icuL2Line (cfg : Config) (p : ℚ) : String :=
  icuRiskLabel cfg.lang ++ fmtFixed 1 (p * 100) ++ "% ≥ L2 " ++
    fmtFixed 0 (cfg.lvl2_cut * 100) ++ "%"

/-- Rationale entry of app.py, level 3. -/
def icuL3Line (cfg : Config) (p : ℚ) : String :=
  urgentRiskLabel cfg.lang ++ fmtFixed 1 (p * 100) ++ "% ≥ L3 " ++
    fmtFixed 0 (cfg.lvl3_cut * 100) ++ "%"

/-- Rationale entry of app.py, level 4. -/
def icuL4Line (cfg : Config) (p : ℚ) : String :=
  minorRiskLabel cfg.lang ++ fmtFixed 1 (p * 100) ++ "% ≥ L4 " ++
    fmtFixed 0 (cfg.lvl4_cut * 100) ++ "%"

/-- triage_decision(icu_prob, vitals) of app.py: red flags first, then
the same cascade driven everywhere by the single ICU probability. -/
def triage_decision_app1 (cfg : Config) (p : ℚ) (v : Vitals) : TriageResult :=
  if cfg.apply_redflags = true ∧ vital_red_flags cfg.th v ≠ [] then
    ⟨1, levelCss 1, [flagsLine cfg v]⟩
  else if cfg.lvl1_cut ≤ p then ⟨1, levelCss 1, [icuL1Line cfg p]⟩
  else if cfg.lvl2_cut ≤ p then ⟨2, levelCss 2, [icuL2Line cfg p]⟩
  else if cfg.lvl3_cut ≤ p then ⟨3, levelCss 3, [icuL3Line cfg p]⟩
  else if cfg.lvl4_cut ≤ p then ⟨4, levelCss 4, [icuL4Line cfg p]⟩
  else ⟨5, levelCss 5, [belowCutoffsText cfg.lang]⟩

/-! ### The results panel wiring (right column of app2.py) -/

/-- The results panel of app2.py inside the try block: predict_single
is invoked first; an exception there propagates to st.error and
triage_decision is never reached. A raising predictor call is embedded
as an Except value. -/
def resultsPanel (cfg : Config) (predictorOutput : Except String (List (String × ℚ)))
    (v : Vitals) : Except String TriageResult :=
  match predictorOutput with
  | .error e => .error e
  | .ok preds => .ok (triage_decision cfg preds v)

/-! ### Widget-enforced configuration ranges -/

/-- The min and max bounds of the five red-flag number inputs of the
sidebar. -/
def RedFlagThresholds.inWidgetRange (th : RedFlagThresholds) : Prop :=
  60 ≤ th.rf_sbp ∧ th.rf_sbp ≤ 120 ∧
  70 ≤ th.rf_o2 ∧ th.rf_o2 ≤ 100 ∧
  16 ≤ th.rf_rr_hi ∧ th.rf_rr_hi ≤ 60 ∧
  37 ≤ th.rf_temp_hi ∧ th.rf_temp_hi ≤ 42 ∧
  3 ≤ th.rf_gcs ∧ th.rf_gcs ≤ 15

instance (th : RedFlagThresholds) : Decidable th.inWidgetRange := by
  unfold RedFlagThresholds.inWidgetRange
  infer_instance

/-! ### Concrete configurations used by scenarios -/

/-- The sidebar default red-flag thresholds. -/
def thDefault : RedFlagThresholds :=
  { rf_sbp := 90, rf_o2 := 90, rf_rr_hi := 30, rf_temp_hi := (39.5 : ℚ), rf_gcs := 8 }

/-- The sidebar default configuration (English, red-flag mode on,
cutoffs 0.50, 0.30, 0.40, 0.25). -/
def cfgDefault : Config :=
  { lvl1_cut := (0.50 : ℚ), lvl2_cut := (0.30 : ℚ), lvl3_cut := (0.40 : ℚ),
    lvl4_cut := (0.25 : ℚ), apply_redflags := true, th := thDefault, lang := .en }

/-- The default configuration with red-flag mode switched off. -/
def cfgNoRF : Config := { cfgDefault with apply_redflags := false }

/-- The vitals of spec Scenario A: sbp 70, spo2 95, rr 20, temp 37.0,
GCS 4+5+6 = 15. -/
def vitalsA : Vitals :=
  { sbp := some 70, o2sat := some 95, rr := some 20, temp := some (37.0 : ℚ),
    gcs_e := some 4, gcs_v := some 5, gcs_m := some 6 }

/-- Unremarkable vitals triggering no red flag at default thresholds. -/
def vitalsCalm : Vitals :=
  { sbp := some 110, o2sat := some 95, rr := some 22, temp := some (37.4 : ℚ),
    gcs_e := some 4, gcs_v := some 5, gcs_m := some 6 }

/-- The empty vitals dictionary. -/
def vitalsEmpty : Vitals := {}

/-- The outcome probabilities of spec Scenario B: critical 0.55. -/
def predsB : List (String × ℚ) := [("icu_admission", (0.55 : ℚ))]

/-- The outcome probabilities of spec Scenario C: critical 0.35,
urgent 0.45. -/
def predsC : List (String × ℚ) :=
  [("icu_admission", (0.35 : ℚ)), ("admission", (0.45 : ℚ))]

/-! ### Helper lemmas -/

/-- A lookup of a key absent from an association list returns none. -/
lemma lookup_eq_none_of_not_mem {β : Type} (l : List (String × β)) (k : String)
    (h : k ∉ l.map Prod.fst) : l.lookup k = none := by
  induction l with
  | nil => rfl
  | cons a as ih =>
    obtain ⟨a1, b1⟩ := a
    simp only [List.map_cons, List.mem_cons, not_or] at h
    obtain ⟨h1, h2⟩ := h
    have hne : (k == a1) = false := beq_eq_false_iff_ne.mpr h1
    simp only [List.lookup, hne]
    exact ih h2

/-- Mapping first components over a zip takes the leading keys. -/
lemma map_fst_zip_eq_take {α β : Type} (l1 : List α) (l2 : List β) :
    (l1.zip l2).map Prod.fst = l1.take l2.length := by
  induction l1 generalizing l2 with
  | nil => simp
  | cons a as ih =>
    cases l2 with
    | nil => simp
    | cons b bs => simp [ih]

/-- A conditional singleton is a sublist of the plain singleton. -/
lemma if_singleton_sublist (c : Prop) [Decidable c] (x : String) :
    List.Sublist (if c then [x] else []) [x] := by
  split_ifs <;> simp

/-- The critical bucket maximum is monotone under pointwise increase
of the probability mapping. -/
lemma criticalOf_mono {p q : List (String × ℚ)}
    (h : ∀ k, getD p k ≤ getD q k) : criticalOf p ≤ criticalOf q :=
  max_le_max (max_le_max (max_le_max (h _) (h _)) (h _)) (h _)

/-- The urgent bucket maximum is monotone under pointwise increase. -/
lemma urgentOf_mono {p q : List (String × ℚ)}
    (h : ∀ k, getD p k ≤ getD q k) : urgentOf p ≤ urgentOf q :=
  max_le_max (max_le_max (h _) (h _)) (h _)

/-- The minor bucket maximum is monotone under pointwise increase. -/
lemma minorOf_mono {p q : List (String × ℚ)}
    (h : ∀ k, getD p k ≤ getD q k) : minorOf p ≤ minorOf q :=
  max_le_max (h _) (h _)

/-- The level produced by the non-red-flag cascade of triage_decision,
as a function of the three bucket maxima. -/
def cascadeLevel (cfg : Config) (c u m : ℚ) : ℕ :=
  if cfg.lvl1_cut ≤ c then 1
  else if cfg.lvl2_cut ≤ c then 2
  else if cfg.lvl3_cut ≤ u then 3
  else if cfg.lvl4_cut ≤ m then 4
  else 5

/-- The level field of triage_decision factors through cascadeLevel. -/
lemma triage_decision_level (cfg : Config) (preds : List (String × ℚ)) (v : Vitals) :
    (triage_decision cfg preds v).level =
      if cfg.apply_redflags = true ∧ vital_red_flags cfg.th v ≠ [] then 1
      else cascadeLevel cfg (criticalOf preds) (urgentOf preds) (minorOf preds) := by
  unfold triage_decision cascadeLevel
  split_ifs <;> rfl

/-- The cascade level is antitone in all three bucket maxima. -/
lemma cascadeLevel_mono (cfg : Config) {c u m c' u' m' : ℚ}
    (hc : c ≤ c') (hu : u ≤ u') (hm : m ≤ m') :
    cascadeLevel cfg c' u' m' ≤ cascadeLevel cfg c u m := by
  unfold cascadeLevel
  split_ifs <;> linarith

/-! ### Claim theorems -/

/-- C1: for every probability mapping (the all-zero mapping included)
and every vitals input, when apply_redflags is on and the red-flag
evaluator returns at least one flag, triage_decision of app2.py and
the app.py variant both return level 1, and the single rationale entry
is the flag list verbatim, joined after the red-flag header. -/
theorem claim_C1_redflag_forces_level1 (cfg : Config)
    (preds : List (String × ℚ)) (p : ℚ) (v : Vitals)
    (hmode : cfg.apply_redflags = true)
    (hflags : vital_red_flags cfg.th v ≠ []) :
    (triage_decision cfg preds v).level = 1 ∧
    (triage_decision cfg preds v).rationale =
      [flagsHeader cfg.lang ++ String.intercalate ", " (vital_red_flags cfg.th v)] ∧
    (triage_decision_app1 cfg p v).level = 1 ∧
    (triage_decision_app1 cfg p v).rationale =
      [flagsHeader cfg.lang ++ String.intercalate ", " (vital_red_flags cfg.th v)] := by
  have h : cfg.apply_redflags = true ∧ vital_red_flags cfg.th v ≠ [] := ⟨hmode, hflags⟩
  unfold triage_decision triage_decision_app1
  rw [if_pos h, if_pos h]
  exact ⟨rfl, rfl, rfl, rfl⟩

/-- C1 witness: Scenario-A vitals with the all-zero (empty) probability
mapping under the default configuration. -/
theorem claim_C1_witness :
    (triage_decision cfgDefault [] vitalsA).level = 1 ∧
    (triage_decision cfgDefault [] vitalsA).rationale =
      [flagsHeader cfgDefault.lang ++
        String.intercalate ", " (vital_red_flags cfgDefault.th vitalsA)] ∧
    (triage_decision_app1 cfgDefault 0 vitalsA).level = 1 ∧
    (triage_decision_app1 cfgDefault 0 vitalsA).rationale =
      [flagsHeader cfgDefault.lang ++
        String.intercalate ", " (vital_red_flags cfgDefault.th vitalsA)] :=
  claim_C1_redflag_forces_level1 cfgDefault [] 0 vitalsA rfl
    (by with_unfolding_all decide)

/-- C2: with red-flag mode off or no flag triggered, and p the critical
bucket maximum: p at or above cutoff_L1 gives level 1, and p in
[cutoff_L2, cutoff_L1) gives level 2; each rationale is the single
entry recording the metric value and the threshold compared. -/
theorem claim_C2_critical_cutoffs (cfg : Config)
    (preds : List (String × ℚ)) (v : Vitals)
    (hnf : cfg.apply_redflags = false ∨ vital_red_flags cfg.th v = []) :
    (cfg.lvl1_cut ≤ criticalOf preds →
      (triage_decision cfg preds v).level = 1 ∧
      (triage_decision cfg preds v).rationale = [critL1Line cfg preds]) ∧
    (cfg.lvl2_cut ≤ criticalOf preds → criticalOf preds < cfg.lvl1_cut →
      (triage_decision cfg preds v).level = 2 ∧
      (triage_decision cfg preds v).rationale = [critL2Line cfg preds]) := by
  have hcond : ¬(cfg.apply_redflags = true ∧ vital_red_flags cfg.th v ≠ []) := by
    rcases hnf with h | h
    · intro hc
      rw [h] at hc
      exact Bool.false_ne_true hc.1
    · intro hc
      exact hc.2 h
  unfold triage_decision
  rw [if_neg hcond]
  constructor
  · intro h1
    rw [if_pos h1]
    exact ⟨rfl, rfl⟩
  · intro h2 hlt
    rw [if_neg (not_le.mpr hlt), if_pos h2]
    exact ⟨rfl, rfl⟩

/-- C2 witness: Scenario B (critical 0.55, cutoff_L1 0.50, red-flag
mode off) lands in level 1. -/
theorem claim_C2_witness :
    (triage_decision cfgNoRF predsB vitalsCalm).level = 1 ∧
    (triage_decision cfgNoRF predsB vitalsCalm).rationale =
      [critL1Line cfgNoRF predsB] :=
  (claim_C2_critical_cutoffs cfgNoRF predsB vitalsCalm (Or.inl rfl)).1
    (by with_unfolding_all decide)

/-- C3: the cascade is decided by fixed branch order, not by comparing
raw magnitudes across buckets: whenever the red-flag branch is not
taken and the critical maximum reaches cutoff_L2, the level is at most
2 whatever the urgent and minor values are; and in Scenario C
(critical 0.35, urgent 0.45, cutoffs 0.50/0.30/0.40, red-flag mode
off) the result is level 2 although the urgent value is numerically
larger than the critical one and reaches its own cutoff_L3. -/
theorem claim_C3_fixed_branch_order (cfg : Config)
    (preds : List (String × ℚ)) (v : Vitals)
    (hnf : ¬(cfg.apply_redflags = true ∧ vital_red_flags cfg.th v ≠ []))
    (h2 : cfg.lvl2_cut ≤ criticalOf preds) :
    (triage_decision cfg preds v).level ≤ 2 ∧
    (triage_decision cfgNoRF predsC vitalsCalm).level = 2 ∧
    criticalOf predsC < urgentOf predsC ∧
    cfgNoRF.lvl3_cut ≤ urgentOf predsC := by
  refine ⟨?_, by with_unfolding_all decide, by with_unfolding_all decide,
    by with_unfolding_all decide⟩
  unfold triage_decision
  rw [if_neg hnf]
  by_cases h1 : cfg.lvl1_cut ≤ criticalOf preds
  · rw [if_pos h1]
    norm_num
  · rw [if_neg h1, if_pos h2]

/-- C3 witness: Scenario C itself discharges the hypotheses. -/
theorem claim_C3_witness :
    (triage_decision cfgNoRF predsC vitalsCalm).level ≤ 2 :=
  (claim_C3_fixed_branch_order cfgNoRF predsC vitalsCalm
    (by with_unfolding_all decide) (by with_unfolding_all decide)).1

/-- C4: monotonicity of triage_decision of app2.py: with the
configuration and vitals fixed, raising outcome probabilities
pointwise (in particular raising any single one and keeping the rest)
never raises the numeric level, i.e. never produces a less urgent
result. -/
theorem claim_C4_monotonicity (cfg : Config) (v : Vitals)
    (preds preds' : List (String × ℚ))
    (h : ∀ k, getD preds k ≤ getD preds' k) :
    (triage_decision cfg preds' v).level ≤ (triage_decision cfg preds v).level := by
  rw [triage_decision_level, triage_decision_level]
  by_cases hrf : cfg.apply_redflags = true ∧ vital_red_flags cfg.th v ≠ []
  · rw [if_pos hrf, if_pos hrf]
  · rw [if_neg hrf, if_neg hrf]
    exact cascadeLevel_mono cfg (criticalOf_mono h) (urgentOf_mono h) (minorOf_mono h)

/-- C4 witness: raising the ICU-admission probability from 0 (empty
mapping) to 0.55 moves the level from 5 to 1, never upward. -/
theorem claim_C4_witness :
    (triage_decision cfgNoRF predsB vitalsCalm).level ≤
      (triage_decision cfgNoRF [] vitalsCalm).level :=
  claim_C4_monotonicity cfgNoRF vitalsCalm [] predsB (by
    intro k
    show (0 : ℚ) ≤ getD predsB k
    unfold getD predsB List.lookup
    cases hk : k == "icu_admission" with
    | false => simp
    | true =>
      simp only [Option.getD_some]
      norm_num)

/-- C5: vital_red_flags is a function of the vitals and the five
thresholds alone; its output is always an in-order sublist of the five
flag strings of the fixed check order (systolic BP, SpO2, respiratory
rate, temperature, GCS total), one string per triggered check; and
Scenario A (sbp 70 against sbp_low 90, all other vitals calm, red-flag
mode on) yields level 1 in both apps with the SBP flag as rationale. -/
theorem claim_C5_evaluator_order_and_scenarioA (th : RedFlagThresholds) (v : Vitals) :
    List.Sublist (vital_red_flags th v)
      [sbpFlag th, spo2Flag th, rrFlag th, tempFlag th, gcsFlag th] ∧
    vital_red_flags thDefault vitalsA = ["SBP < 90"] ∧
    (triage_decision cfgDefault [] vitalsA).level = 1 ∧
    (triage_decision cfgDefault [] vitalsA).rationale =
      ["Vital red‑flags: SBP < 90"] ∧
    (triage_decision_app1 cfgDefault 0 vitalsA).level = 1 ∧
    (triage_decision_app1 cfgDefault 0 vitalsA).rationale =
      ["Vital red‑flags: SBP < 90"] := by
  refine ⟨?_, by with_unfolding_all decide, by with_unfolding_all decide,
    by with_unfolding_all decide, by with_unfolding_all decide,
    by with_unfolding_all decide⟩
  unfold vital_red_flags
  exact ((((if_singleton_sublist _ _).append (if_singleton_sublist _ _)).append
    (if_singleton_sublist _ _)).append (if_singleton_sublist _ _)).append
    (if_singleton_sublist _ _)

/-- C6 counterexample: the claim that a predictor failure does not
prevent a red-flag-driven decision is false at the results panel of
the app: with red-flag mode on and Scenario-A vitals breaching the SBP
threshold, a raising predict_single call makes the panel surface the
error and no decision value is produced. -/
theorem claim_C6_counterexample :
    cfgDefault.apply_redflags = true ∧
    vital_red_flags cfgDefault.th vitalsA ≠ [] ∧
    resultsPanel cfgDefault (Except.error "predictor unavailable") vitalsA =
      Except.error "predictor unavailable" ∧
    ¬∃ r : TriageResult,
      resultsPanel cfgDefault (Except.error "predictor unavailable") vitalsA =
        Except.ok r := by
  refine ⟨rfl, by with_unfolding_all decide, rfl, ?_⟩
  rintro ⟨r, hr⟩
  exact Except.noConfusion hr

/-- C6 amended: triage_decision itself never needs predictor output in
the red-flag branch: once red-flag mode is on and a flag is triggered,
the panel produces a level-1 decision for every probability mapping,
the empty one included; but predict_single runs before triage_decision
in the results panel, so a predictor failure aborts the panel without
any decision. -/
theorem claim_C6_amended_redflag_path (cfg : Config)
    (preds : List (String × ℚ)) (v : Vitals) (e : String)
    (hmode : cfg.apply_redflags = true)
    (hflags : vital_red_flags cfg.th v ≠ []) :
    (∃ r : TriageResult,
      resultsPanel cfg (Except.ok preds) v = Except.ok r ∧ r.level = 1) ∧
    resultsPanel cfg (Except.error e) v = Except.error e := by
  constructor
  · refine ⟨triage_decision cfg preds v, rfl, ?_⟩
    unfold triage_decision
    rw [if_pos ⟨hmode, hflags⟩]
  · rfl

/-- C6 witness: Scenario-A vitals, empty probability mapping, and a
failing predictor. -/
theorem claim_C6_witness :
    (∃ r : TriageResult,
      resultsPanel cfgDefault (Except.ok []) vitalsA = Except.ok r ∧ r.level = 1) ∧
    resultsPanel cfgDefault (Except.error "down") vitalsA = Except.error "down" :=
  claim_C6_amended_redflag_path cfgDefault [] vitalsA "down" rfl
    (by with_unfolding_all decide)

/-- C7: determinism and idempotence: both decision functions are pure
functions of their explicit arguments (probabilities, vitals, cutoffs,
red-flag thresholds and mode, language); in this embedding every
Python global the source reads is one of those arguments, so two calls
on identical arguments are definitionally the same value, levels and
rationale strings included. -/
theorem claim_C7_idempotent (cfg : Config) (preds : List (String × ℚ))
    (p : ℚ) (v : Vitals) :
    triage_decision cfg preds v = triage_decision cfg preds v ∧
    triage_decision_app1 cfg p v = triage_decision_app1 cfg p v :=
  ⟨rfl, rfl⟩

/-- C8: every decision carries exactly one rationale entry, and that
entry is the red-flag line, one of the four threshold-comparison
lines, or the below-cutoffs text; the app.py variant also never
returns an empty rationale. -/
theorem claim_C8_rationale_nonempty (cfg : Config)
    (preds : List (String × ℚ)) (p : ℚ) (v : Vitals) :
    (triage_decision cfg preds v).rationale ≠ [] ∧
    (∃ s, (triage_decision cfg preds v).rationale = [s] ∧
      (s = flagsLine cfg v ∨ s = critL1Line cfg preds ∨ s = critL2Line cfg preds ∨
        s = urgL3Line cfg preds ∨ s = minL4Line cfg preds ∨
        s = belowCutoffsText cfg.lang)) ∧
    (triage_decision_app1 cfg p v).rationale ≠ [] := by
  refine ⟨?_, ?_, ?_⟩
  · unfold triage_decision
    split_ifs <;> simp
  · unfold triage_decision
    split_ifs
    · exact ⟨_, rfl, Or.inl rfl⟩
    · exact ⟨_, rfl, Or.inr (Or.inl rfl)⟩
    · exact ⟨_, rfl, Or.inr (Or.inr (Or.inl rfl))⟩
    · exact ⟨_, rfl, Or.inr (Or.inr (Or.inr (Or.inl rfl)))⟩
    · exact ⟨_, rfl, Or.inr (Or.inr (Or.inr (Or.inr (Or.inl rfl))))⟩
    · exact ⟨_, rfl, Or.inr (Or.inr (Or.inr (Or.inr (Or.inr rfl))))⟩
  · unfold triage_decision_app1
    split_ifs <;> simp

/-- C9 counterexample: the claim that the empty vitals dictionary can
never produce a flag fails at the widget boundary: with the GCS
threshold at its widget maximum 15 (all other thresholds at their
defaults), the default GCS components 4+5+6 = 15 trigger the GCS flag
on the empty dictionary. -/
theorem claim_C9_counterexample :
    ({ thDefault with rf_gcs := 15 } : RedFlagThresholds).inWidgetRange ∧
    vital_red_flags { thDefault with rf_gcs := 15 } vitalsEmpty = ["GCS ≤ 15"] :=
  ⟨by with_unfolding_all decide, by with_unfolding_all decide⟩

/-- C9 amended: missing vitals default to the sentinels 999 (sbp), 100
(o2sat), 0 (rr), 0 (temp) and GCS components 4, 5, 6 totalling 15, so
within the widget-enforced threshold ranges no absent vital can
trigger the SBP, SpO2, RR or temperature flag, and for any GCS
threshold strictly below 15 the empty vitals dictionary yields no flag
at all; at the widget maximum gcs_total_low = 15 the GCS flag does
trigger on the empty dictionary. -/
theorem claim_C9_amended_empty_vitals (th : RedFlagThresholds)
    (hw : th.inWidgetRange) (hg : th.rf_gcs < 15) :
    vital_red_flags th vitalsEmpty = [] := by
  obtain ⟨h1, h2, h3, h4, h5, h6, h7, h8, h9, h10⟩ := hw
  have e1 : vitalsEmpty.sbp = none := rfl
  have e2 : vitalsEmpty.o2sat = none := rfl
  have e3 : vitalsEmpty.rr = none := rfl
  have e4 : vitalsEmpty.temp = none := rfl
  have e5 : vitalsEmpty.gcs_e = none := rfl
  have e6 : vitalsEmpty.gcs_v = none := rfl
  have e7 : vitalsEmpty.gcs_m = none := rfl
  unfold vital_red_flags
  rw [e1, e2, e3, e4, e5, e6, e7]
  simp only [Option.getD_none]
  rw [if_neg (by omega), if_neg (by omega), if_neg (by omega),
    if_neg (by linarith), if_neg (by omega)]
  rfl

/-- C9 witness: the default thresholds (GCS threshold 8) are in range
and yield no flag for the empty vitals dictionary. -/
theorem claim_C9_witness : vital_red_flags thDefault vitalsEmpty = [] :=
  claim_C9_amended_empty_vitals thDefault (by with_unfolding_all decide)
    (by decide)

/-- C10: an outcome name absent from the probability mapping is read
as probability 0 by the get-with-default the bucket maxima use; and
the mapping built by predict_single from a flat prediction vector has
exactly the leading TARGETS names as keys, min(9, n) entries for an
n-value vector, with the unmatched names silently absent instead of
raising. -/
theorem claim_C10_missing_outcomes_default_zero :
    (∀ (preds : List (String × ℚ)) (k : String),
      k ∉ preds.map Prod.fst → getD preds k = 0) ∧
    (∀ flat : List ℚ,
      (predictPreds flat).map Prod.fst = TARGETS.take flat.length) ∧
    (∀ flat : List ℚ,
      (predictPreds flat).length = min TARGETS.length flat.length) := by
  refine ⟨?_, ?_, ?_⟩
  · intro preds k h
    unfold getD
    rw [lookup_eq_none_of_not_mem preds k h]
    rfl
  · intro flat
    exact map_fst_zip_eq_take TARGETS flat
  · intro flat
    simp [predictPreds]

/-- C10 witness: a single-value prediction vector maps only the first
target name; the absent consult outcome reads as probability 0. -/
theorem claim_C10_witness :
    getD (predictPreds [(0.5 : ℚ)]) "consult" = 0 :=
  claim_C10_missing_outcomes_default_zero.1 (predictPreds [(0.5 : ℚ)]) "consult"
    (by with_unfolding_all decide)

end EDTriage
